import Mathlib

/-!
Shallow embedding of the llm-do repository (src/llm_do), covering the
sandbox module (`sandbox/__init__.py`), the tool-approval gate
(`executor.py`), and the worker CLI (`pydanticai/cli.py`), together with
theorems checking the specification claims against the embedded code.

Paths are modelled as lists of components of an absolute POSIX path;
filesystem state is threaded explicitly through the operations that touch
it. Machine-level services the code calls (the OS path canonicalization
performed by `Path.resolve()`) enter as explicit parameters, so the
containment theorems hold for every canonicalization, symlinks included.
-/

/-- Python exception values raised by the embedded code, keyed by the
exception class the source uses. The taxonomy names of the specification
map onto these: NotFound is `keyError`/`fileNotFoundError`, PermissionDenied
is `permissionError`, SizeExceeded is the `valueError` raised by the size
checks. -/
inductive PyError where
  | keyError (msg : String)
  | fileNotFoundError (msg : String)
  | permissionError (msg : String)
  | valueError (msg : String)
  | notImplementedError (msg : String)
  deriving DecidableEq

/-- Split a character list at every slash, keeping raw (possibly empty)
segments. -/
def splitCharsAux (cur : List Char) : List Char → List (List Char)
  | [] => [cur.reverse]
  | c :: cs => if c == '/' then cur.reverse :: splitCharsAux [] cs else splitCharsAux (c :: cur) cs

/-- Path components of a string, as `pathlib` parses them: split at slashes,
dropping empty components and single dots. -/
def pathSegs (s : String) : List String :=
  (((splitCharsAux [] s.data).map (fun cs => String.mk cs)).filter
    (fun seg => seg != "" && seg != "."))

/-- relative.lstrip("/") : drop every leading slash. -/
def stripLeadingSlashes (s : String) : String :=
  String.mk (s.data.dropWhile (fun c => c == '/'))

/-- Resolve ".." components of an absolute path given as a component list;
models what `Path.resolve()` does on a symlink-free filesystem (at the
filesystem root, ".." stays at the root, as in POSIX). -/
def osCanon (comps : List String) : List String :=
  comps.foldl
    (fun acc c => if c = "." then acc else if c = ".." then acc.dropLast else acc ++ [c]) []

/-- Index of the last dot in a character list, if any. -/
def lastDotIdx (cs : List Char) : Option Nat :=
  (((cs.enum).filter (fun p => p.2 == '.')).getLast?).map (fun p => p.1)

/-- PurePath.suffix of a file name: the part from the last dot on, and empty
when the name has no dot, starts with its only dot, or ends with the dot. -/
def pathSuffix (name : String) : String :=
  let cs := name.data
  match lastDotIdx cs with
  | none => ""
  | some i => if 0 < i ∧ i + 1 < cs.length then String.mk (cs.drop i) else ""

/-- str.lower() restricted to ASCII letters, which is all the suffix and
mode checks rely on. -/
def strToLower (s : String) : String :=
  String.mk (s.data.map Char.toLower)

/-- Final component of a path, "" for the filesystem root. -/
def lastComponent (p : List String) : String :=
  p.getLastD ""

/-- target.suffix.lower() for a resolved path. -/
def targetSuffix (target : List String) : String :=
  strToLower (pathSuffix (lastComponent target))

/-- Runtime form of one configured sandbox (the SandboxRoot dataclass). -/
structure SandboxRoot where
  name : String
  path : List String
  read_only : Bool
  allowed_suffixes : List String
  text_suffixes : List String
  attachment_suffixes : List String
  max_bytes : Nat
  deriving DecidableEq

/-- The candidate path before canonicalization: `self.path / relative` after
`relative.lstrip("/")`. -/
def SandboxRoot.joined (root : SandboxRoot) (relative : String) : List String :=
  root.path ++ pathSegs (stripLeadingSlashes relative)

/-- SandboxRoot.resolve : strip leading slashes, join with the root,
canonicalize through `canon` (the OS `Path.resolve()`), then require the
canonical result to lie under the root — `candidate.relative_to(self.path)`
succeeds exactly when the root components are a prefix of the candidate
components, both sides being canonical absolute paths. -/
def SandboxRoot.resolve (canon : List String → List String) (root : SandboxRoot)
    (relative : String) : Except PyError (List String) :=
  let candidate := canon (root.joined relative)
  if root.path.isPrefixOf candidate then Except.ok candidate
  else Except.error (PyError.permissionError "Path escapes sandbox root")

/-- Filesystem state: text files keyed by absolute path components plus the
existing directories, threaded explicitly through the embedded operations. -/
structure FileSystem where
  files : List (List String × String)
  dirs : List (List String)
  deriving DecidableEq

/-- Content of the file at `p`, when a file exists there. -/
def FileSystem.readFile? (fs : FileSystem) (p : List String) : Option String :=
  (fs.files.find? (fun kv => kv.1 == p)).map (fun kv => kv.2)

/-- target.write_text(content) : create or overwrite the file at `p`. -/
def FileSystem.writeFile (fs : FileSystem) (p : List String) (content : String) : FileSystem :=
  { fs with files := (p, content) :: fs.files.filter (fun kv => kv.1 != p) }

/-- All prefixes of a component list (the ancestor chain of a directory). -/
def prefixesOf : List String → List (List String)
  | [] => [[]]
  | x :: xs => [] :: (prefixesOf xs).map (fun ys => x :: ys)

/-- target.parent.mkdir(parents=True, exist_ok=True) : create the missing
ancestors of the target path. -/
def FileSystem.mkdirParents (fs : FileSystem) (target : List String) : FileSystem :=
  { fs with dirs := (prefixesOf target.dropLast).filter (fun d => !(fs.dirs.contains d)) ++ fs.dirs }

/-- Every path that exists on the filesystem, paired with whether it is a
directory. -/
def FileSystem.entriesTyped (fs : FileSystem) : List (List String × Bool) :=
  fs.files.map (fun kv => (kv.1, false)) ++ fs.dirs.map (fun d => (d, true))

/-- SandboxConfig after pydantic validation: the mode validator has
lowercased the mode and restricted it to "ro"/"rw", the suffix validators
have lowercased the lists; `path` is the configured root, already expanded
and resolved to absolute components as `__init__` does at startup. -/
structure SandboxConfig where
  name : String
  path : List String
  mode : String := "ro"
  allowed_suffixes : List String := []
  text_suffixes : List String := []
  attachment_suffixes : List String := []
  max_bytes : Nat := 2000000
  deriving DecidableEq

/-- SandboxManager state: the name-keyed mapping of sandbox roots, fixed at
startup. -/
structure SandboxManager where
  sandboxes : List (String × SandboxRoot)
  deriving DecidableEq

/-- One entry of SandboxManager.__init__ : read_only is `cfg.mode == "ro"`,
the suffix lists and byte ceiling are copied from the config. -/
def SandboxRoot.ofConfig (name : String) (cfg : SandboxConfig) : SandboxRoot :=
  { name := name
    path := cfg.path
    read_only := cfg.mode == "ro"
    allowed_suffixes := cfg.allowed_suffixes
    text_suffixes := cfg.text_suffixes
    attachment_suffixes := cfg.attachment_suffixes
    max_bytes := cfg.max_bytes }

/-- SandboxManager.__init__ over the configured mapping; the `mkdir` of each
root directory happens at startup, before any of the operations modelled
below run. -/
def SandboxManager.ofConfigs (cfgs : List (String × SandboxConfig)) : SandboxManager :=
  { sandboxes := cfgs.map (fun nc => (nc.1, SandboxRoot.ofConfig nc.1 nc.2)) }

/-- SandboxManager._sandbox_for : dictionary lookup, KeyError when absent. -/
def SandboxManager.sandbox_for (m : SandboxManager) (sandbox : String) :
    Except PyError SandboxRoot :=
  match m.sandboxes.find? (fun kv => kv.1 == sandbox) with
  | some kv => Except.ok kv.2
  | none => Except.error (PyError.keyError (s!"Unknown sandbox {sandbox}"))

/-- SandboxManager.read_text : look up the sandbox, resolve the path, fail
with FileNotFoundError unless a file exists there, enforce the text-suffix
allow-list when non-empty, read, and fail when the character count exceeds
max_chars. -/
def SandboxManager.read_text (canon : List String → List String) (m : SandboxManager)
    (fs : FileSystem) (sandbox path : String) (max_chars : Nat := 200000) :
    Except PyError String :=
  match m.sandbox_for sandbox with
  | Except.error e => Except.error e
  | Except.ok root =>
    match root.resolve canon path with
    | Except.error e => Except.error e
    | Except.ok target =>
      match fs.readFile? target with
      | none => Except.error (PyError.fileNotFoundError path)
      | some text =>
        let suffix := targetSuffix target
        if root.text_suffixes ≠ [] ∧ suffix ∉ root.text_suffixes then
          Except.error (PyError.permissionError
            (s!"Suffix {suffix} not allowed for sandbox_read_text in {sandbox}"))
        else if text.length > max_chars then
          Except.error (PyError.valueError "File exceeds max_chars")
        else Except.ok text

/-- str() of a path relative to a root, given by components ("." when the
path is the root itself). -/
def joinPath : List String → String
  | [] => "."
  | [x] => x
  | x :: xs => x ++ "/" ++ joinPath xs

/-- SandboxManager.write_text : look up the sandbox, reject read-only
sandboxes, resolve the path, enforce the suffix allow-list when non-empty,
reject content whose UTF-8 byte length exceeds max_bytes, and only then
create the parent directories and write the file. The filesystem is
returned alongside the result to make the state effect explicit. -/
def SandboxManager.write_text (canon : List String → List String) (m : SandboxManager)
    (fs : FileSystem) (sandbox path content : String) :
    FileSystem × Except PyError String :=
  match m.sandbox_for sandbox with
  | Except.error e => (fs, Except.error e)
  | Except.ok root =>
    if root.read_only then
      (fs, Except.error (PyError.permissionError "Sandbox is read-only"))
    else
      match root.resolve canon path with
      | Except.error e => (fs, Except.error e)
      | Except.ok target =>
        let suffix := targetSuffix target
        if root.allowed_suffixes ≠ [] ∧ suffix ∉ root.allowed_suffixes then
          (fs, Except.error (PyError.permissionError
            (s!"Suffix {suffix} not allowed in sandbox {sandbox}")))
        else if content.utf8ByteSize > root.max_bytes then
          (fs, Except.error (PyError.valueError "Content exceeds sandbox max_bytes"))
        else
          let rel := target.drop root.path.length
          let n := content.length
          ((fs.mkdirParents target).writeFile target content,
            Except.ok (s!"wrote {n} chars to {sandbox}:{joinPath rel}"))

/-- One item of an fnmatch "[...]" character class: a single character, or a
codepoint range formed around a "-". -/
inductive ClsItem where
  | single (c : Char)
  | range (lo hi : Char)
  deriving DecidableEq

/-- One token of an fnmatch pattern segment: a literal character, "?" (any
one character), "*" (any run of characters, dots included — fnmatch does
not treat hidden names specially), or a "[...]" class with optional "!"
negation. -/
inductive FnTok where
  | lit (c : Char)
  | anyChar
  | anySeq
  | cls (neg : Bool) (items : List ClsItem)
  deriving DecidableEq

/-- One segment of a `Path.glob` pattern: the recursive "**", or an
fnmatch-matched segment. -/
inductive GlobSeg where
  | seg (tokens : List FnTok)
  | recursive
  deriving DecidableEq

/-- All suffixes of a list, longest first. -/
def suffixesOf {α : Type} : List α → List (List α)
  | [] => [[]]
  | c :: cs => (c :: cs) :: suffixesOf cs

/-- Characters up to the closing "]" of a character class, when one exists. -/
def spanToRBracket : List Char → Option (List Char × List Char)
  | [] => none
  | ']' :: r => some ([], r)
  | c :: r =>
    match spanToRBracket r with
    | none => none
    | some pr => some (c :: pr.1, pr.2)

/-- Scan a "[...]" class body as fnmatch.translate does: an initial "!"
negates, a "]" directly after that is part of the body, and a missing
closing "]" makes the "[" a plain literal (signalled by `none`). -/
def scanClass (rest : List Char) : Option (Bool × List Char × List Char) :=
  let negPair : Bool × List Char :=
    match rest with
    | '!' :: r => (true, r)
    | _ => (false, rest)
  match negPair.2 with
  | ']' :: r2 =>
    match spanToRBracket r2 with
    | none => none
    | some pr => some (negPair.1, ']' :: pr.1, pr.2)
  | r1 =>
    match spanToRBracket r1 with
    | none => none
    | some pr => some (negPair.1, pr.1, pr.2)

/-- Items of a class body: each interior "-" forms a codepoint range from
its neighbours; a leading or trailing "-" stays literal. -/
def parseClsItems : List Char → List ClsItem
  | [] => []
  | c :: '-' :: d :: rest => ClsItem.range c d :: parseClsItems rest
  | c :: rest => ClsItem.single c :: parseClsItems rest

/-- Tokenize one fnmatch segment; the fuel (the character count) only feeds
the termination argument, since a class consumes more than one character. -/
def parseSegFuel : Nat → List Char → List FnTok
  | 0, _ => []
  | _, [] => []
  | fuel + 1, '*' :: rest => FnTok.anySeq :: parseSegFuel fuel rest
  | fuel + 1, '?' :: rest => FnTok.anyChar :: parseSegFuel fuel rest
  | fuel + 1, '[' :: rest =>
    (match scanClass rest with
     | none => FnTok.lit '[' :: parseSegFuel fuel rest
     | some nbr => FnTok.cls nbr.1 (parseClsItems nbr.2.1) :: parseSegFuel fuel nbr.2.2)
  | fuel + 1, c :: rest => FnTok.lit c :: parseSegFuel fuel rest

def parseSeg (cs : List Char) : List FnTok :=
  parseSegFuel cs.length cs

def clsItemMatch (d : Char) : ClsItem → Bool
  | ClsItem.single c => c == d
  | ClsItem.range lo hi => lo.toNat ≤ d.toNat && d.toNat ≤ hi.toNat

def clsMatch (neg : Bool) (items : List ClsItem) (d : Char) : Bool :=
  if neg then !(items.any (clsItemMatch d)) else items.any (clsItemMatch d)

/-- fnmatch of a tokenized segment against the characters of a name: "?"
consumes one character, "*" any suffix split, classes test one character;
hidden names get no special treatment, exactly as in fnmatch. -/
def matchTokens : List FnTok → List Char → Bool
  | [], ds => ds.isEmpty
  | FnTok.lit c :: ts, ds =>
    match ds with
    | [] => false
    | d :: ds2 => c == d && matchTokens ts ds2
  | FnTok.anyChar :: ts, ds =>
    match ds with
    | [] => false
    | _ :: ds2 => matchTokens ts ds2
  | FnTok.cls neg items :: ts, ds =>
    match ds with
    | [] => false
    | d :: ds2 => clsMatch neg items d && matchTokens ts ds2
  | FnTok.anySeq :: ts, ds => (suffixesOf ds).any (fun t => matchTokens ts t)

/-- Match the components of a path relative to the root against glob pattern
segments: each non-"**" segment is fnmatched against one component, and
"**" skips any run of components — hidden directories included, as
`Path.glob` traverses them. -/
def globMatch : List GlobSeg → List String → Bool
  | [], cs => cs.isEmpty
  | GlobSeg.seg ts :: ps, cs =>
    match cs with
    | [] => false
    | c :: cs2 => matchTokens ts c.data && globMatch ps cs2
  | GlobSeg.recursive :: ps, cs => (suffixesOf cs).any (fun t => globMatch ps t)

def parseGlobSeg (s : String) : GlobSeg :=
  if s = "**" then GlobSeg.recursive
  else GlobSeg.seg (parseSeg s.data)

/-- A pattern parses through the same component split as a path (pathlib
parses the pattern with PurePath, dropping empty and "." components). -/
def parsePattern (s : String) : List GlobSeg :=
  (pathSegs s).map parseGlobSeg

/-- Two adjacent stars somewhere in a segment. -/
def hasAdjacentStars : List Char → Bool
  | [] => false
  | [_] => false
  | a :: b :: rest => (a == '*' && b == '*') || hasAdjacentStars (b :: rest)

def startsWithSlash (s : String) : Bool :=
  match s.data with
  | '/' :: _ => true
  | _ => false

/-- Whether the last pattern segment is the recursive "**" — such a pattern
yields directories only. -/
def endsRecursive : List GlobSeg → Bool
  | [] => false
  | [GlobSeg.recursive] => true
  | [_] => false
  | _ :: rest => endsRecursive rest

/-- Lexicographic code-point order on character lists — how Python compares
strings. -/
def charListLe : List Char → List Char → Bool
  | [], _ => true
  | _ :: _, [] => false
  | a :: as, b :: bs =>
    if a.toNat < b.toNat then true
    else if b.toNat < a.toNat then false
    else charListLe as bs

def strLeB (a b : String) : Bool :=
  charListLe a.data b.data

/-- Propositional form of the string order, for the sorting lemmas. -/
def StrLe (a b : String) : Prop :=
  strLeB a b = true

instance : DecidableRel StrLe :=
  fun a b => inferInstanceAs (Decidable (strLeB a b = true))

/-- sorted() on a list of strings. -/
def sortStrings (l : List String) : List String :=
  l.insertionSort StrLe

/-- SandboxManager.list_files : look up the sandbox, glob the pattern under
the root, express matches relative to the root, and sort. The glob guards
mirror `Path.glob`: an empty or component-less pattern is unacceptable, an
absolute pattern is unsupported, and "**" embedded inside a segment is
invalid. A match is an existing path whose components extend the root and
whose relative components match the pattern — directories only when the
pattern ends in "**", files and directories otherwise. -/
def SandboxManager.list_files (m : SandboxManager) (fs : FileSystem)
    (sandbox : String) (pattern : String := "**/*") : Except PyError (List String) :=
  match m.sandbox_for sandbox with
  | Except.error e => Except.error e
  | Except.ok root =>
    if pattern = "" ∨ pathSegs pattern = [] then
      Except.error (PyError.valueError "Unacceptable pattern")
    else if startsWithSlash pattern = true then
      Except.error (PyError.notImplementedError "Non-relative patterns are unsupported")
    else if ((pathSegs pattern).any (fun seg => seg != "**" && hasAdjacentStars seg.data)) = true then
      Except.error (PyError.valueError "Invalid pattern")
    else
      let ps := parsePattern pattern
      let found := (fs.entriesTyped.filter (fun pb =>
          root.path.isPrefixOf pb.1 && globMatch ps (pb.1.drop root.path.length) &&
            (!(endsRecursive ps) || pb.2))).map
        (fun pb => joinPath (pb.1.drop root.path.length))
      Except.ok (sortStrings found)

/-- A file handed to AttachmentPolicy.validate_paths : its name (the final
component, feeding Path.suffix) and its stat().st_size. No file content
exists in the model, mirroring that validation reads only metadata. -/
structure AttFile where
  name : String
  size : Nat
  deriving DecidableEq

/-- AttachmentPolicy after pydantic validation (suffix lists lowercased,
max_attachments non-negative, max_total_bytes positive). -/
structure AttachmentPolicy where
  max_attachments : Nat := 4
  max_total_bytes : Nat := 10000000
  allowed_suffixes : List String := []
  denied_suffixes : List String := []
  deriving DecidableEq

/-- The per-file loop of validate_paths : suffix allow/deny checks, then the
running byte total against max_total_bytes, stopping at the first
violation. -/
def AttachmentPolicy.checkFiles (pol : AttachmentPolicy) (total : Nat) :
    List AttFile → Except PyError Unit
  | [] => Except.ok ()
  | f :: rest =>
    let suffix := strToLower (pathSuffix f.name)
    if pol.allowed_suffixes ≠ [] ∧ suffix ∉ pol.allowed_suffixes then
      Except.error (PyError.valueError (s!"Attachment suffix {suffix} not allowed"))
    else if pol.denied_suffixes ≠ [] ∧ suffix ∈ pol.denied_suffixes then
      Except.error (PyError.valueError (s!"Attachment suffix {suffix} is denied"))
    else
      let total2 := total + f.size
      if total2 > pol.max_total_bytes then
        Except.error (PyError.valueError "Attachments exceed max_total_bytes")
      else pol.checkFiles total2 rest

/-- AttachmentPolicy.validate_paths : the count ceiling first, then the
per-file loop with a zero running total. -/
def AttachmentPolicy.validate_paths (pol : AttachmentPolicy) (attachments : List AttFile) :
    Except PyError Unit :=
  if attachments.length > pol.max_attachments then
    Except.error (PyError.valueError "Too many attachments provided")
  else pol.checkFiles 0 attachments

/-- Outcome of one gated call: a normal return, or a raised CancelToolCall
carrying its message. -/
inductive ApprovalOutcome where
  | approved
  | cancelled (msg : String)
  deriving DecidableEq

/-- Result of one ToolApprovalCallback.__call__ : the outcome, the
approve_all flag afterwards, and how many times the user was prompted. -/
structure ApprovalResult where
  outcome : ApprovalOutcome
  approve_all : Bool
  prompts : Nat
  deriving DecidableEq

def isPyWS (c : Char) : Bool :=
  c == ' ' || c == '\t' || c == '\n' || c == '\x0d' || c == '\x0b' || c == '\x0c'

/-- str.strip() : drop whitespace from both ends. -/
def strTrim (s : String) : String :=
  String.mk (((s.data.dropWhile isPyWS).reverse.dropWhile isPyWS).reverse)

/-- response.lower().strip() as applied to each prompt answer. -/
def strLowerTrim (s : String) : String :=
  strTrim (strToLower s)

/-- The prompt loop of __call__ when approve_all is off: consume successive
responses until one is recognized, counting one prompt per loop iteration;
`none` when the supplied responses run out (the real CLI would keep
blocking for further input). -/
def promptLoop (approve_all : Bool) : List String → Option ApprovalResult
  | [] => none
  | r :: rs =>
    let response := strLowerTrim r
    if response = "y" ∨ response = "yes" ∨ response = "" then
      some { outcome := ApprovalOutcome.approved, approve_all := approve_all, prompts := 1 }
    else if response = "n" ∨ response = "no" then
      some { outcome := ApprovalOutcome.cancelled "User declined tool call"
             approve_all := approve_all
             prompts := 1 }
    else if response = "a" ∨ response = "always" then
      some { outcome := ApprovalOutcome.approved, approve_all := true, prompts := 1 }
    else if response = "q" ∨ response = "quit" then
      some { outcome := ApprovalOutcome.cancelled "User quit"
             approve_all := approve_all
             prompts := 1 }
    else
      match promptLoop approve_all rs with
      | none => none
      | some res => some { res with prompts := res.prompts + 1 }

/-- ToolApprovalCallback.__call__ : return immediately without prompting when
approve_all is already set, otherwise run the prompt loop. -/
def approvalCall (approve_all : Bool) (responses : List String) : Option ApprovalResult :=
  if approve_all then
    some { outcome := ApprovalOutcome.approved, approve_all := true, prompts := 0 }
  else promptLoop approve_all responses

/-- A session: the approve_all flag threaded through successive gated calls,
each given its own response list. -/
def runSession (approve_all : Bool) : List (List String) → List (Option ApprovalResult) × Bool
  | [] => ([], approve_all)
  | c :: cs =>
    let r := approvalCall approve_all c
    let s2 := match r with
      | some res => res.approve_all
      | none => approve_all
    let rest := runSession s2 cs
    (r :: rest.1, rest.2)

/-- Minimal JSON values, enough for the ModelHTTPError body inspection done
by the CLI. -/
inductive Json where
  | null
  | bool (b : Bool)
  | num (n : Int)
  | str (s : String)
  | arr (xs : List Json)
  | dict (kvs : List (String × Json))

/-- Python truthiness of a JSON value. -/
def Json.truthy : Json → Bool
  | Json.null => false
  | Json.bool b => b
  | Json.num n => n != 0
  | Json.str s => s != ""
  | Json.arr xs => !xs.isEmpty
  | Json.dict kvs => !kvs.isEmpty

def Json.isDict : Json → Bool
  | Json.dict _ => true
  | _ => false

/-- dict.get(key, default). -/
def Json.get (j : Json) (key : String) (dflt : Json) : Json :=
  match j with
  | Json.dict kvs =>
    match kvs.find? (fun kv => kv.1 == key) with
    | some kv => kv.2
    | none => dflt
  | _ => dflt

/-- f-string rendering of the body message (a string renders as itself). -/
def Json.display : Json → String
  | Json.str s => s
  | _ => "<json>"

/-- The exceptions the CLI main() handles, keyed by Python class. In Python,
json.JSONDecodeError is a subclass of ValueError, which the dispatch below
accounts for. -/
inductive CliError where
  | fileNotFoundError (msg : String)
  | permissionError (msg : String)
  | jsonDecodeError (msg : String)
  | valueError (msg : String)
  | modelHTTPError (status_code : Int) (model_name : String) (body : Option Json)
  | unexpectedModelBehavior (msg : String)
  | userError (msg : String)
  | otherError (msg : String)

/-- Observable outcome of main(): the returned exit code (none when the
error was re-raised under --debug), the lines written to stdout and stderr,
and whether the caught error was re-raised. -/
structure CliOutcome where
  exitCode : Option Nat
  stdoutLines : List String
  stderrLines : List String
  reraised : Bool

/-- stderr lines of the ModelHTTPError handler: the status line, plus the
body error message when the body is a truthy dict whose "error" entry is a
dict with a truthy "message". -/
def modelHttpLines (status_code : Int) (model_name : String) (body : Option Json) :
    List String :=
  let first := s!"Model API error (status {status_code}): {model_name}"
  match body with
  | some b =>
    if b.truthy && b.isDict then
      let info := b.get "error" (Json.dict [])
      if info.isDict then
        let msg := info.get "message" (Json.str "")
        if msg.truthy then [first, "  " ++ msg.display] else [first]
      else [first]
    else [first]
  | none => [first]

/-- Whether a ModelHTTPError body makes the handler print the second detail
line: the body is a truthy dict whose "error" entry is a dict with a truthy
"message". -/
def bodyCarriesMessage : Option Json → Bool
  | none => false
  | some b =>
    if b.truthy && b.isDict then
      if (b.get "error" (Json.dict [])).isDict then
        ((b.get "error" (Json.dict [])).get "message" (Json.str "")).truthy
      else false
    else false

/-- The except chain of main(): each handler prints its diagnostic lines to
stderr, then re-raises when --debug is set and otherwise returns 1. The
ValueError clause precedes the json.JSONDecodeError clause and — since
JSONDecodeError subclasses ValueError — also captures decode errors, so a
decode error is reported with the "Invalid input:" diagnostic and the
dedicated JSON branch of the source is unreachable. -/
def cliHandle (e : CliError) (debug : Bool) : CliOutcome :=
  let finish := fun (lines : List String) =>
    if debug then
      { exitCode := none, stdoutLines := [], stderrLines := lines, reraised := true }
    else
      { exitCode := some 1, stdoutLines := [], stderrLines := lines, reraised := false }
  match e with
  | CliError.fileNotFoundError msg => finish [s!"Error: {msg}"]
  | CliError.permissionError msg => finish [s!"Permission denied: {msg}"]
  | CliError.valueError msg => finish [s!"Invalid input: {msg}"]
  | CliError.jsonDecodeError msg => finish [s!"Invalid input: {msg}"]
  | CliError.modelHTTPError st nm body => finish (modelHttpLines st nm body)
  | CliError.unexpectedModelBehavior msg => finish [s!"Error: {msg}"]
  | CliError.userError msg => finish [s!"Error: {msg}"]
  | CliError.otherError msg => finish [s!"Unexpected error: {msg}"]

/-- main(): the try block either produces the JSON-serialized worker result
(printed to stdout, exit 0) or raises one of the handled errors, dispatched
to the except chain. -/
def cliMain (outcome : Except CliError String) (debug : Bool) : CliOutcome :=
  match outcome with
  | Except.ok serialized =>
    { exitCode := some 0, stdoutLines := [serialized], stderrLines := [], reraised := false }
  | Except.error e => cliHandle e debug

/-!
Helper lemmas shared by the claim theorems, and concrete fixtures used by
the witnesses.
-/

theorem readFile?_writeFile_self (fs : FileSystem) (p : List String) (c : String) :
    (fs.writeFile p c).readFile? p = some c := by
  unfold FileSystem.writeFile FileSystem.readFile?
  rw [List.find?_cons_of_pos]
  · rfl
  · simp

theorem sandbox_for_ofConfigs (cfgs : List (String × SandboxConfig)) (s : String) :
    (SandboxManager.ofConfigs cfgs).sandbox_for s =
      match cfgs.find? (fun kv => kv.1 == s) with
      | some nc => Except.ok (SandboxRoot.ofConfig nc.1 nc.2)
      | none => Except.error (PyError.keyError (s!"Unknown sandbox {s}")) := by
  unfold SandboxManager.sandbox_for SandboxManager.ofConfigs
  rw [List.find?_map]
  have hcomp : ((fun kv : String × SandboxRoot => kv.1 == s) ∘
      (fun nc : String × SandboxConfig => (nc.1, SandboxRoot.ofConfig nc.1 nc.2))) =
      (fun nc : String × SandboxConfig => nc.1 == s) := rfl
  rw [hcomp]
  cases h : cfgs.find? (fun nc : String × SandboxConfig => nc.1 == s) <;> simp

/-- Fixture: a writable sandbox rooted at /ws/data with no suffix limits. -/
def demoRoot : SandboxRoot :=
  { name := "data"
    path := ["ws", "data"]
    read_only := false
    allowed_suffixes := []
    text_suffixes := []
    attachment_suffixes := []
    max_bytes := 2000000 }

def demoManager : SandboxManager :=
  { sandboxes := [("data", demoRoot)] }

def demoFS : FileSystem :=
  { files := [], dirs := [["ws", "data"]] }

/-- Fixture: a read-only sandbox rooted at /ws/input. -/
def demoRORoot : SandboxRoot :=
  { name := "input"
    path := ["ws", "input"]
    read_only := true
    allowed_suffixes := []
    text_suffixes := []
    attachment_suffixes := []
    max_bytes := 2000000 }

def demoROManager : SandboxManager :=
  { sandboxes := [("input", demoRORoot)] }

/-- C1: SandboxRoot.resolve confines its results to the sandbox root. For
every canonicalization of the joined path (covering symlink and ".."
resolution by `Path.resolve()`), every path resolve returns has the root
components as a prefix; and whenever the canonical resolution falls outside
the root, resolve fails with the path-escape PermissionError, and so do
read_text and (on a writable sandbox) write_text on that path, the latter
leaving the filesystem unchanged. -/
theorem sandbox_resolve_containment (canon : List String → List String)
    (root : SandboxRoot) (rel : String) :
    (∀ p, root.resolve canon rel = Except.ok p → root.path.isPrefixOf p = true) ∧
    (root.path.isPrefixOf (canon (root.joined rel)) = false →
      root.resolve canon rel =
          Except.error (PyError.permissionError "Path escapes sandbox root") ∧
      ∀ (m : SandboxManager) (fs : FileSystem) (sb : String) (maxc : Nat) (content : String),
        m.sandbox_for sb = Except.ok root →
        m.read_text canon fs sb rel maxc =
            Except.error (PyError.permissionError "Path escapes sandbox root") ∧
        (root.read_only = false →
          m.write_text canon fs sb rel content =
            (fs, Except.error (PyError.permissionError "Path escapes sandbox root")))) := by
  constructor
  · intro p hp
    simp only [SandboxRoot.resolve] at hp
    by_cases h : root.path.isPrefixOf (canon (root.joined rel)) = true
    · rw [if_pos h] at hp
      cases hp
      exact h
    · rw [if_neg h] at hp
      cases hp
  · intro h
    have hres : root.resolve canon rel =
        Except.error (PyError.permissionError "Path escapes sandbox root") := by
      simp only [SandboxRoot.resolve]
      rw [if_neg]
      simp [h]
    refine ⟨hres, ?_⟩
    intro m fs sb maxc content hm
    constructor
    · simp [SandboxManager.read_text, hm, hres]
    · intro hro
      simp [SandboxManager.write_text, hm, hro, hres]

theorem sandbox_resolve_containment_witness :
    demoRoot.path.isPrefixOf (osCanon (demoRoot.joined "../../etc/passwd")) = false ∧
    demoRoot.resolve osCanon "../../etc/passwd" =
        Except.error (PyError.permissionError "Path escapes sandbox root") ∧
    demoManager.read_text osCanon demoFS "data" "../../etc/passwd" 200000 =
        Except.error (PyError.permissionError "Path escapes sandbox root") := by
  have h := (sandbox_resolve_containment osCanon demoRoot "../../etc/passwd").2 (by decide)
  exact ⟨by decide, h.1, (h.2 demoManager demoFS "data" 200000 "" (by rfl)).1⟩

/-- C2: write_text on a sandbox configured with mode "ro" fails with the
read-only PermissionError and leaves the filesystem unchanged, for every
path — valid or escaping — and every content: the read-only check precedes
path resolution. -/
theorem write_text_read_only_denied (canon : List String → List String)
    (cfgs : List (String × SandboxConfig)) (s : String) (nc : String × SandboxConfig)
    (hfind : cfgs.find? (fun kv => kv.1 == s) = some nc) (hro : nc.2.mode = "ro")
    (fs : FileSystem) (path content : String) :
    (SandboxManager.ofConfigs cfgs).write_text canon fs s path content =
      (fs, Except.error (PyError.permissionError "Sandbox is read-only")) := by
  have hm := sandbox_for_ofConfigs cfgs s
  rw [hfind] at hm
  have hroot : (SandboxRoot.ofConfig nc.1 nc.2).read_only = true := by
    simp [SandboxRoot.ofConfig, hro]
  simp [SandboxManager.write_text, hm, hroot]

/-- Fixture: a sandbox config left on its defaults (mode "ro"). -/
def demoROCfg : SandboxConfig :=
  { name := "input", path := ["ws", "input"] }

theorem write_text_read_only_denied_witness :
    (SandboxManager.ofConfigs [("input", demoROCfg)]).write_text osCanon demoFS
        "input" "../escape.txt" "data" =
      (demoFS, Except.error (PyError.permissionError "Sandbox is read-only")) :=
  write_text_read_only_denied osCanon [("input", demoROCfg)] "input" ("input", demoROCfg)
    (by rfl) (by rfl) demoFS "../escape.txt" "data"

/-- C10: write_text is atomic on error — whenever it returns an error
(unknown sandbox, read-only sandbox, escaping path, disallowed suffix, or
oversized content), the filesystem component of its result is exactly the
input filesystem: no directory is created and no file is created or
modified, because every check completes before the mkdir and the write. -/
theorem write_text_error_leaves_fs (canon : List String → List String)
    (m : SandboxManager) (fs : FileSystem) (sandbox path content : String) (e : PyError)
    (h : (m.write_text canon fs sandbox path content).2 = Except.error e) :
    (m.write_text canon fs sandbox path content).1 = fs := by
  cases hm : m.sandbox_for sandbox with
  | error e2 => simp [SandboxManager.write_text, hm]
  | ok root =>
    by_cases hro : root.read_only = true
    · simp [SandboxManager.write_text, hm, hro]
    · cases hres : root.resolve canon path with
      | error e2 => simp [SandboxManager.write_text, hm, hro, hres]
      | ok target =>
        by_cases hsuf : root.allowed_suffixes ≠ [] ∧ targetSuffix target ∉ root.allowed_suffixes
        · simp [SandboxManager.write_text, hm, hro, hres, hsuf]
        · by_cases hsz : content.utf8ByteSize > root.max_bytes
          · simp [SandboxManager.write_text, hm, hro, hres, hsuf, hsz]
          · exfalso
            simp [SandboxManager.write_text, hm, hro, hres, hsuf, hsz] at h

theorem write_text_error_leaves_fs_witness :
    (demoROManager.write_text osCanon demoFS "input" "x.txt" "hi").2 =
        Except.error (PyError.permissionError "Sandbox is read-only") ∧
    (demoROManager.write_text osCanon demoFS "input" "x.txt" "hi").1 = demoFS :=
  ⟨by rfl,
   write_text_error_leaves_fs osCanon demoROManager demoFS "input" "x.txt" "hi"
     (PyError.permissionError "Sandbox is read-only") (by rfl)⟩

/-- C3: on a writable sandbox, for a path that resolves inside the root with
an allowed write suffix and an allowed text-read suffix, and content within
both the byte ceiling and the character ceiling, write_text succeeds and a
read_text of the same path over the resulting filesystem returns exactly
the written content. -/
theorem write_then_read_roundtrip (canon : List String → List String)
    (m : SandboxManager) (fs : FileSystem) (sandbox path content : String)
    (root : SandboxRoot) (target : List String) (maxc : Nat)
    (hm : m.sandbox_for sandbox = Except.ok root)
    (hro : root.read_only = false)
    (hres : root.resolve canon path = Except.ok target)
    (hsuf : root.allowed_suffixes = [] ∨ targetSuffix target ∈ root.allowed_suffixes)
    (hbytes : content.utf8ByteSize ≤ root.max_bytes)
    (htext : root.text_suffixes = [] ∨ targetSuffix target ∈ root.text_suffixes)
    (hchars : content.length ≤ maxc) :
    (∃ msg, (m.write_text canon fs sandbox path content).2 = Except.ok msg) ∧
    m.read_text canon (m.write_text canon fs sandbox path content).1 sandbox path maxc =
      Except.ok content := by
  have hc1 : ¬(root.allowed_suffixes ≠ [] ∧ targetSuffix target ∉ root.allowed_suffixes) := by
    rcases hsuf with h | h
    · simp [h]
    · simp [h]
  have hc2 : ¬(content.utf8ByteSize > root.max_bytes) := by omega
  have hw : m.write_text canon fs sandbox path content =
      ((fs.mkdirParents target).writeFile target content,
        Except.ok (s!"wrote {content.length} chars to {sandbox}:{joinPath (target.drop root.path.length)}")) := by
    simp [SandboxManager.write_text, hm, hro, hres, hc1, hc2]
  have hc3 : ¬(root.text_suffixes ≠ [] ∧ targetSuffix target ∉ root.text_suffixes) := by
    rcases htext with h | h
    · simp [h]
    · simp [h]
  have hc4 : ¬(content.length > maxc) := by omega
  constructor
  · exact ⟨_, by rw [hw]⟩
  · rw [hw]
    simp [SandboxManager.read_text, hm, hres, readFile?_writeFile_self, hc3, hc4]

theorem write_then_read_roundtrip_witness :
    demoManager.read_text osCanon
        (demoManager.write_text osCanon demoFS "data" "notes/x.txt" "hello").1
        "data" "notes/x.txt" 200000 = Except.ok "hello" :=
  (write_then_read_roundtrip osCanon demoManager demoFS "data" "notes/x.txt" "hello"
    demoRoot ["ws", "data", "notes", "x.txt"] 200000 (by rfl) (by rfl) (by rfl)
    (Or.inl rfl) (by decide) (Or.inl rfl) (by decide)).2

/-- C7: on a writable sandbox, for a path that resolves inside the root with
an allowed suffix, content whose UTF-8 byte length exceeds max_bytes makes
write_text fail with the max_bytes ValueError (SizeExceeded), leaving the
filesystem unchanged. -/
theorem write_text_size_exceeded (canon : List String → List String)
    (m : SandboxManager) (fs : FileSystem) (sandbox path content : String)
    (root : SandboxRoot) (target : List String)
    (hm : m.sandbox_for sandbox = Except.ok root)
    (hro : root.read_only = false)
    (hres : root.resolve canon path = Except.ok target)
    (hsuf : root.allowed_suffixes = [] ∨ targetSuffix target ∈ root.allowed_suffixes)
    (hsz : content.utf8ByteSize > root.max_bytes) :
    m.write_text canon fs sandbox path content =
      (fs, Except.error (PyError.valueError "Content exceeds sandbox max_bytes")) := by
  have hc1 : ¬(root.allowed_suffixes ≠ [] ∧ targetSuffix target ∉ root.allowed_suffixes) := by
    rcases hsuf with h | h
    · simp [h]
    · simp [h]
  simp [SandboxManager.write_text, hm, hro, hres, hc1, hsz]

/-- Fixture: the writable /ws/out sandbox with a 10-byte ceiling from the
specification scenario. -/
def demoOutRoot : SandboxRoot :=
  { name := "out"
    path := ["ws", "out"]
    read_only := false
    allowed_suffixes := []
    text_suffixes := []
    attachment_suffixes := []
    max_bytes := 10 }

def demoOutManager : SandboxManager :=
  { sandboxes := [("out", demoOutRoot)] }

theorem write_text_size_exceeded_witness :
    "12345678901".utf8ByteSize = 11 ∧
    demoOutManager.write_text osCanon demoFS "out" "x.txt" "12345678901" =
      (demoFS, Except.error (PyError.valueError "Content exceeds sandbox max_bytes")) :=
  ⟨by decide,
   write_text_size_exceeded osCanon demoOutManager demoFS "out" "x.txt" "12345678901"
     demoOutRoot ["ws", "out", "x.txt"] (by rfl) (by rfl) (by rfl) (Or.inl rfl) (by decide)⟩

theorem checkFiles_append_error (pol : AttachmentPolicy) (l2 : List AttFile) :
    ∀ (l1 : List AttFile) (total : Nat) (e : PyError),
      pol.checkFiles total l1 = Except.error e →
      pol.checkFiles total (l1 ++ l2) = Except.error e := by
  intro l1
  induction l1 with
  | nil =>
    intro total e h
    simp [AttachmentPolicy.checkFiles] at h
  | cons f rest ih =>
    intro total e h
    by_cases h1 : pol.allowed_suffixes ≠ [] ∧ strToLower (pathSuffix f.name) ∉ pol.allowed_suffixes
    · simp [AttachmentPolicy.checkFiles, h1] at h ⊢
      exact h
    · by_cases h2 : pol.denied_suffixes ≠ [] ∧ strToLower (pathSuffix f.name) ∈ pol.denied_suffixes
      · simp [AttachmentPolicy.checkFiles, h1, h2] at h ⊢
        exact h
      · by_cases h3 : total + f.size > pol.max_total_bytes
        · simp [AttachmentPolicy.checkFiles, h1, h2, h3] at h ⊢
          exact h
        · have h4 : pol.checkFiles (total + f.size) rest = Except.error e := by
            simpa [AttachmentPolicy.checkFiles, h1, h2, h3] using h
          simpa [AttachmentPolicy.checkFiles, h1, h2, h3] using ih (total + f.size) e h4

/-- C8: validate_paths checks the attachment count first — a list longer
than max_attachments is rejected with the count ValueError no matter what
the files are — and the per-file suffix and cumulative-size loop
short-circuits: an error raised on a prefix of the list decides the result
whatever files follow. No file content is touched at all: the loop consults
only names and stat sizes, which is all an AttFile carries. -/
theorem attachment_count_checked_first (pol : AttachmentPolicy) (files : List AttFile) :
    (files.length > pol.max_attachments →
      pol.validate_paths files =
        Except.error (PyError.valueError "Too many attachments provided")) ∧
    (∀ l1 l2 e, files = l1 ++ l2 → pol.checkFiles 0 l1 = Except.error e →
      files.length ≤ pol.max_attachments →
      pol.validate_paths files = Except.error e) := by
  constructor
  · intro h
    simp [AttachmentPolicy.validate_paths, h]
  · intro l1 l2 e hsplit hck hlen
    subst hsplit
    have hno : ¬((l1 ++ l2).length > pol.max_attachments) := by omega
    simp only [AttachmentPolicy.validate_paths, if_neg hno]
    exact checkFiles_append_error pol l2 l1 0 e hck

/-- Fixture: an attachment policy capped at one attachment, with two
individually valid image files. -/
def demoPolicy : AttachmentPolicy :=
  { max_attachments := 1 }

def demoAtts : List AttFile :=
  [{ name := "a.png", size := 10 }, { name := "b.png", size := 20 }]

theorem attachment_count_checked_first_witness :
    demoAtts.length > demoPolicy.max_attachments ∧
    demoPolicy.validate_paths demoAtts =
      Except.error (PyError.valueError "Too many attachments provided") :=
  ⟨by decide, (attachment_count_checked_first demoPolicy demoAtts).1 (by decide)⟩

theorem charListLe_total : ∀ (a b : List Char), charListLe a b = true ∨ charListLe b a = true := by
  intro a
  induction a with
  | nil =>
    intro b
    left
    rfl
  | cons x xs ih =>
    intro b
    cases b with
    | nil =>
      right
      rfl
    | cons y ys =>
      rcases Nat.lt_trichotomy x.toNat y.toNat with h | h | h
      · left
        simp [charListLe, h]
      · have h1 : ¬ x.toNat < y.toNat := by omega
        have h2 : ¬ y.toNat < x.toNat := by omega
        rcases ih ys with h3 | h3
        · left
          simp [charListLe, h1, h2, h3]
        · right
          simp [charListLe, h1, h2, h3]
      · right
        simp [charListLe, h]

theorem charListLe_trans : ∀ (a b c : List Char),
    charListLe a b = true → charListLe b c = true → charListLe a c = true := by
  intro a
  induction a with
  | nil =>
    intro b c hab hbc
    rfl
  | cons x xs ih =>
    intro b c hab hbc
    cases b with
    | nil => simp [charListLe] at hab
    | cons y ys =>
      cases c with
      | nil => simp [charListLe] at hbc
      | cons z zs =>
        by_cases h1 : x.toNat < y.toNat
        · by_cases h2 : y.toNat < z.toNat
          · have hxz : x.toNat < z.toNat := by omega
            simp [charListLe, hxz]
          · by_cases h3 : z.toNat < y.toNat
            · simp [charListLe, h2, h3] at hbc
            · have hxz : x.toNat < z.toNat := by omega
              simp [charListLe, hxz]
        · by_cases h4 : y.toNat < x.toNat
          · simp [charListLe, h1, h4] at hab
          · by_cases h2 : y.toNat < z.toNat
            · have hxz : x.toNat < z.toNat := by omega
              simp [charListLe, hxz]
            · by_cases h3 : z.toNat < y.toNat
              · simp [charListLe, h2, h3] at hbc
              · have h5 : ¬ x.toNat < z.toNat := by omega
                have h6 : ¬ z.toNat < x.toNat := by omega
                have hab2 : charListLe xs ys = true := by
                  simpa [charListLe, h1, h4] using hab
                have hbc2 : charListLe ys zs = true := by
                  simpa [charListLe, h2, h3] using hbc
                simp only [charListLe, if_neg h5, if_neg h6]
                exact ih ys zs hab2 hbc2

instance : IsTotal String StrLe where
  total a b := charListLe_total a.data b.data

instance : IsTrans String StrLe where
  trans a b c hab hbc := charListLe_trans a.data b.data c.data hab hbc

/-- Fixture: the /ws/input directory of the specification scenario, holding
a.png and b.txt, plus a hidden .gitignore that wildcards must match as
fnmatch does. -/
def demoInputFS : FileSystem :=
  { files := [(["ws", "input", "a.png"], ""), (["ws", "input", "b.txt"], ""),
      (["ws", "input", ".gitignore"], "")]
    dirs := [["ws", "input"]] }

theorem runSession_auto (cs : List (List String)) :
    runSession true cs =
      (cs.map (fun _ =>
        some { outcome := ApprovalOutcome.approved, approve_all := true, prompts := 0 }), true) := by
  induction cs with
  | nil => rfl
  | cons c cs ih => simp [runSession, approvalCall, ih]

/-- C5: an "always" answer makes the triggering call proceed with the
approve_all flag set, and the flag then stays set for the rest of the
session: every later gated call returns approved immediately with zero
prompts, whatever responses it would have been given — the gate never
prompts again. -/
theorem approval_always_persists (r : String) (rs : List String) (cs : List (List String))
    (ha : strLowerTrim r = "a" ∨ strLowerTrim r = "always") :
    approvalCall false (r :: rs) =
      some { outcome := ApprovalOutcome.approved, approve_all := true, prompts := 1 } ∧
    (runSession true cs).2 = true ∧
    ∀ o ∈ (runSession true cs).1,
      o = some { outcome := ApprovalOutcome.approved, approve_all := true, prompts := 0 } := by
  refine ⟨?_, ?_, ?_⟩
  · rcases ha with h | h <;> simp [approvalCall, promptLoop, h]
  · rw [runSession_auto]
  · intro o ho
    rw [runSession_auto] at ho
    rcases List.mem_map.mp ho with ⟨c, _, hc⟩
    exact hc.symm

theorem approval_always_persists_witness :
    approvalCall false ["a"] =
      some { outcome := ApprovalOutcome.approved, approve_all := true, prompts := 1 } ∧
    ∀ o ∈ (runSession true [["n"], ["q"]]).1,
      o = some { outcome := ApprovalOutcome.approved, approve_all := true, prompts := 0 } :=
  ⟨(approval_always_persists "a" [] [["n"], ["q"]] (Or.inl (by decide))).1,
   (approval_always_persists "a" [] [["n"], ["q"]] (Or.inl (by decide))).2.2⟩

theorem modelHttpLines_length (st : Int) (nm : String) (body : Option Json) :
    1 ≤ (modelHttpLines st nm body).length ∧ (modelHttpLines st nm body).length ≤ 2 ∧
    ((modelHttpLines st nm body).length = 2 ↔ bodyCarriesMessage body = true) := by
  unfold modelHttpLines bodyCarriesMessage
  cases body with
  | none => simp
  | some b =>
    by_cases h1 : (b.truthy && b.isDict) = true
    · by_cases h2 : (b.get "error" (Json.dict [])).isDict = true
      · by_cases h3 : ((b.get "error" (Json.dict [])).get "message" (Json.str "")).truthy = true
        · simp [h1, h2, h3]
        · simp [h1, h2, h3]
      · simp [h1, h2]
    · simp [h1]

/-- C6 (amended): main returns exit code 0 on success, writing the
JSON-serialized worker result to stdout; for every handled error category
it returns exit code 1 without re-raising and writes a diagnostic of one or
two lines to stderr — exactly two lines precisely when the error is a
ModelHTTPError whose response body carries an error message; and with the
debug flag set, the caught error is re-raised instead of returning 1. -/
theorem cli_exit_codes (s : String) (e : CliError) :
    cliMain (Except.ok s) false =
      { exitCode := some 0, stdoutLines := [s], stderrLines := [], reraised := false } ∧
    (cliMain (Except.error e) false).exitCode = some 1 ∧
    (cliMain (Except.error e) false).reraised = false ∧
    1 ≤ (cliMain (Except.error e) false).stderrLines.length ∧
    (cliMain (Except.error e) false).stderrLines.length ≤ 2 ∧
    ((cliMain (Except.error e) false).stderrLines.length = 2 ↔
      ∃ st nm body, e = CliError.modelHTTPError st nm body ∧ bodyCarriesMessage body = true) ∧
    (cliMain (Except.error e) true).reraised = true := by
  refine ⟨rfl, ?_, ?_, ?_, ?_, ?_, ?_⟩
  · cases e <;> rfl
  · cases e <;> rfl
  · cases e
    case modelHTTPError st nm body =>
      simpa [cliMain, cliHandle] using (modelHttpLines_length st nm body).1
    all_goals simp [cliMain, cliHandle]
  · cases e
    case modelHTTPError st nm body =>
      simpa [cliMain, cliHandle] using (modelHttpLines_length st nm body).2.1
    all_goals simp [cliMain, cliHandle]
  · cases e
    case modelHTTPError st nm body =>
      constructor
      · intro h
        refine ⟨st, nm, body, rfl, ?_⟩
        exact (modelHttpLines_length st nm body).2.2.mp (by simpa [cliMain, cliHandle] using h)
      · rintro ⟨st2, nm2, body2, heq, hmsg⟩
        cases heq
        simpa [cliMain, cliHandle] using (modelHttpLines_length st nm body).2.2.mpr hmsg
    all_goals
      constructor
      · intro h
        simp [cliMain, cliHandle] at h
      · rintro ⟨st2, nm2, body2, heq, hmsg⟩
        cases heq
  · cases e <;> rfl

theorem cli_exit_codes_witness :
    cliMain (Except.ok "null") false =
      { exitCode := some 0, stdoutLines := ["null"], stderrLines := [], reraised := false } ∧
    (cliMain (Except.error (CliError.fileNotFoundError "missing.yaml")) false).exitCode =
      some 1 ∧
    (∃ st nm body,
      CliError.modelHTTPError 502 "gpt"
          (some (Json.dict [("error", Json.dict [("message", Json.str "overloaded")])])) =
        CliError.modelHTTPError st nm body ∧ bodyCarriesMessage body = true) :=
  ⟨(cli_exit_codes "null" (CliError.fileNotFoundError "missing.yaml")).1,
   (cli_exit_codes "null" (CliError.fileNotFoundError "missing.yaml")).2.1,
   (cli_exit_codes "null" (CliError.modelHTTPError 502 "gpt"
       (some (Json.dict [("error", Json.dict [("message", Json.str "overloaded")])])))).2.2.2.2.2.1.mp
     (by rfl)⟩

/-- C6 counterexample to the claim as frozen: for a model/API error whose
response body carries an error message, the CLI prints a two-line
diagnostic to stderr rather than a one-line one (the exit code is still 1). -/
theorem cli_two_line_diagnostic_counterexample :
    (cliMain (Except.error (CliError.modelHTTPError 500 "test-model"
        (some (Json.dict [("error", Json.dict [("message", Json.str "boom")])])))) false).stderrLines =
      ["Model API error (status 500): test-model", "  boom"] ∧
    (cliMain (Except.error (CliError.modelHTTPError 500 "test-model"
        (some (Json.dict [("error", Json.dict [("message", Json.str "boom")])])))) false).stderrLines.length ≠ 1 ∧
    (cliMain (Except.error (CliError.modelHTTPError 500 "test-model"
        (some (Json.dict [("error", Json.dict [("message", Json.str "boom")])])))) false).exitCode =
      some 1 := by
  refine ⟨rfl, ?_, rfl⟩
  decide
